import Mathlib

/-!
Verification of the wait-resolver and template-preparer claims.

Part 1 embeds `SecondsPath._eval_body` from
`src/localstack/services/stepfunctions/asl/component/state/state_wait/wait_function/seconds_path.py`.
The `Seconds` wait function and the Path Evaluator (the external `jsonpath_ng`
library) are not under `src/`; they are modelled from the spec and marked so.

Part 2 embeds `transform_template`, `do_transformations` and
`format_transforms` from
`src/localstack/services/cloudformation/engine/template_preparer.py`.
The bodies of `execute_macro` and `apply_serverless_transformation` run
external capabilities (a user lambda, the SAM translator); they are kept
abstract as oracle parameters.
-/

/-- A JSON-like document value (Python's parsed-JSON data model: `None`, `bool`,
`int`, `str`, `list`, `dict`, with a dict as an association list). -/
inductive Json where
  | null
  | bool (b : Bool)
  | int (n : Int)
  | str (s : String)
  | arr (elems : List Json)
  | obj (fields : List (String × Json))
deriving Repr, Inhabited

/-- Whether a value is a Python `int`. -/
def Json.isInt : Json → Bool
  | Json.int _ => true
  | _ => false

/-- Classification of a structured error: spec section 7's taxonomy, restricted
to the classes the wait resolver can produce. -/
inductive ErrorClass where
  | definitionError
  | runtimeError
deriving DecidableEq, Repr

/-- The failure detail of a wait-resolver error, in the spec's vocabulary
(section 4.2): missing value, type error, range error. -/
inductive ErrorDetail where
  | missingValue
  | typeError
  | rangeError
deriving DecidableEq, Repr

/-- A structured error: a classification and a failure detail (spec section 3:
"a name (classification string) and a cause"). -/
structure StructuredError where
  classification : ErrorClass
  detail : ErrorDetail
deriving DecidableEq, Repr

/-- The runtime-classified type error. -/
def runtimeTypeError : StructuredError :=
  ⟨ErrorClass.runtimeError, ErrorDetail.typeError⟩

/-- The runtime-classified range error. -/
def runtimeRangeError : StructuredError :=
  ⟨ErrorClass.runtimeError, ErrorDetail.rangeError⟩

/-- The runtime-classified missing-value error. -/
def runtimeMissingValue : StructuredError :=
  ⟨ErrorClass.runtimeError, ErrorDetail.missingValue⟩

/-- The per-execution Environment as the wait resolver sees it: the current
working document `inp` (the source reads `env.inp`) and the structured-error
slot (spec section 7: "every in-loop failure becomes a Structured Error placed
in the Environment's error slot"). -/
structure Environment where
  inp : Json
  err : Option StructuredError
deriving Repr

/-- The outcome of resolving a wait function: a concrete number of seconds for
the Interpreter Loop's suspension step, or a structured failure. -/
inductive WaitOutcome where
  | resolved (seconds : Int)
  | failed (e : StructuredError)
deriving DecidableEq, Repr

/-- Modelled from the spec: the `Seconds` wait function (class `Seconds` of
`wait_function/seconds.py`, not under `src/`). Spec section 4.2: "Seconds:
literal value, used as-is", with the section 3 invariant "a Wait Specification
resolving to seconds must yield a non-negative integer or the evaluation
fails" and section 4.2's failure classes: a non-integer value is a type error,
a negative integer a range error, both surfacing as structured errors of
runtime-error classification, placed in the Environment's error slot (spec
section 7). On success the resolved duration is produced and the environment
is untouched. -/
def Seconds.eval (seconds : Json) (env : Environment) : WaitOutcome × Environment :=
  match seconds with
  | Json.int n =>
      if n < 0 then
        (WaitOutcome.failed runtimeRangeError, { env with err := some runtimeRangeError })
      else
        (WaitOutcome.resolved n, env)
  | _ =>
      (WaitOutcome.failed runtimeTypeError, { env with err := some runtimeTypeError })

/-- Modelled from the spec: the Path Evaluator leaf capability (the external
`jsonpath_ng` library: `parse(path)` followed by `.find(doc)`), restricted to
child-access paths of the form `$.key`, the only path shape the spec's
examples use. Spec section 2: it "evaluates a query expression against a
JSON-like document, returning an ordered sequence of zero, one, or many
matches"; `$.key` on an object yields the value stored at `key` (one match) or
nothing, and nothing on a non-object. Claims quantifying over arbitrary match
sequences are stated against `SecondsPath.evalMatches`, which takes the
evaluator's output sequence directly. -/
def findMatches (path : String) (doc : Json) : List Json :=
  if path.take 2 = "$." then
    match doc with
    | Json.obj fields =>
        match fields.lookup (path.drop 2) with
        | some v => [v]
        | none => []
    | _ => []
  else []

/-- The `SecondsPath` wait function holds its path string
(`SecondsPath.__init__`: `self.path = path`). -/
structure SecondsPath where
  path : String

/-- The tail of `SecondsPath._eval_body` once the path evaluator has produced
the match list: the source binds `seconds = input_expr.find(env.inp)` — the
ENTIRE list of matches, a Python list (represented here as a `Json.arr` of the
matched values) — and then runs `Seconds(seconds).eval(env)` on it; the first
match is never unwrapped. -/
def SecondsPath.evalMatches (ms : List Json) (env : Environment) :
    WaitOutcome × Environment :=
  Seconds.eval (Json.arr ms) env

/-- `SecondsPath._eval_body`: evaluate the stored path against the working
document `env.inp` and hand the match list to `Seconds`. -/
def SecondsPath.evalBody (sp : SecondsPath) (env : Environment) :
    WaitOutcome × Environment :=
  SecondsPath.evalMatches (findMatches sp.path env.inp) env

/-- `SERVERLESS_TRANSFORM` of `template_preparer.py`. -/
def SERVERLESS_TRANSFORM : String := "AWS::Serverless-2016-10-31"

/-- `EXTENSIONS_TRANSFORM` of `template_preparer.py`. -/
def EXTENSIONS_TRANSFORM : String := "AWS::LanguageExtensions"

/-- A CloudFormation template: a Python dict, as an association list. -/
abbrev Template := List (String × Json)

/-- A failure raised from inside one transformation step: the
`FailedTransformation` exception (transformation name and message), or any
other exception escaping macro execution. `InsufficientCapabilitiesException`
is constructed only in `transform_template`, never here. -/
inductive TransformFailure where
  | failedTransformation (transformation : String) (msg : String)
  | otherException (msg : String)
deriving DecidableEq, Repr

/-- The exceptions `transform_template` / `do_transformations` can raise:
`InsufficientCapabilitiesException`, the `ValidationError`
`CommonServiceException`, a failure from a transformation step, or a Python
`KeyError` from a subscript. -/
inductive TemplateError where
  | insufficientCapabilities (msg : String)
  | validationError (msg : String)
  | transformFailure (f : TransformFailure)
  | keyError (key : String)
deriving DecidableEq, Repr

/-- `execute_macro` kept abstract: its body looks up the macro in the store and
runs a user-supplied lambda (external capabilities). An oracle receives the
current template, the transform definition dict and the stack parameters, and
returns the transformed fragment or a failure. -/
abbrev MacroOracle := Template → Json → List Json → Except TransformFailure Template

/-- `apply_serverless_transformation` kept abstract: its body invokes the
external SAM translator on the current template, returning the transformed
template or a failure. -/
abbrev ServerlessOracle := Template → Except TransformFailure Template

/-- Subscript access `transformation["Name"]` on a JSON value: `none` models
the raising path (`KeyError` on a dict without the key, `TypeError` on a
non-dict). -/
def jlookup (j : Json) (key : String) : Option Json :=
  match j with
  | Json.obj fields => fields.lookup key
  | _ => none

/-- One iteration of the `for transformation in transforms:` loop in the list
case of `format_transforms`: two independent `isinstance` checks append a
`Name`-wrapped entry for a string and the dict itself for a dict; any other
element contributes nothing. -/
def format_transforms_step (transformation : Json) (acc : List Json) : List Json :=
  (match transformation with
   | Json.str s => [Json.obj [("Name", Json.str s)]]
   | _ => []) ++
  (match transformation with
   | Json.obj fields => [Json.obj fields]
   | _ => []) ++ acc

/-- `format_transforms`: normalises the `Transform` section to a list of
transform dicts. The source tests `isinstance(transforms, str)`,
`isinstance(transforms, Dict)` and `isinstance(transforms, list)` with three
independent `if` statements; since a Python value has at most one of these
types the three cases are rendered as one `match`. Any other input falls
through every check and yields the empty list. -/
def format_transforms (transforms : Json) : List Json :=
  match transforms with
  | Json.str s => [Json.obj [("Name", Json.str s)]]
  | Json.obj fields => [Json.obj fields]
  | Json.arr elems => elems.foldr format_transforms_step []
  | _ => []

/-- The `for transformation in transformations:` loop of `do_transformations`,
threading the `result` template through each transform in order: a non-string
`Name` raises the `ValidationError`; `SERVERLESS_TRANSFORM` applies the
serverless transformation; `EXTENSIONS_TRANSFORM` is skipped (`continue`);
anything else executes the named macro. -/
def run_transforms (macroExec : MacroOracle) (serverlessExec : ServerlessOracle)
    (parameters : List Json) :
    List Json → Template → Except TemplateError Template
  | [], result => Except.ok result
  | transformation :: rest, result =>
      match jlookup transformation "Name" with
      | none => Except.error (TemplateError.keyError "Name")
      | some (Json.str name) =>
          if name = SERVERLESS_TRANSFORM then
            match serverlessExec result with
            | Except.ok r => run_transforms macroExec serverlessExec parameters rest r
            | Except.error f => Except.error (TemplateError.transformFailure f)
          else if name = EXTENSIONS_TRANSFORM then
            run_transforms macroExec serverlessExec parameters rest result
          else
            match macroExec result transformation parameters with
            | Except.ok r => run_transforms macroExec serverlessExec parameters rest r
            | Except.error f => Except.error (TemplateError.transformFailure f)
      | some _ =>
          Except.error (TemplateError.validationError
            "Key Name of transform definition must be a string.")

/-- `do_transformations`: copies the template (`dict(template)`, the identity
on this pure representation), formats `result.get("Transform", [])` and runs
the transform loop over the result. -/
def do_transformations (macroExec : MacroOracle) (serverlessExec : ServerlessOracle)
    (template : Template) (parameters : List Json) : Except TemplateError Template :=
  run_transforms macroExec serverlessExec parameters
    (format_transforms ((template.lookup "Transform").getD (Json.arr []))) template

/-- `transform_template`: raises `InsufficientCapabilitiesException` unless
`"CAPABILITY_AUTO_EXPAND"` is among the capabilities, otherwise delegates to
`do_transformations` on a copy of the template. -/
def transform_template (macroExec : MacroOracle) (serverlessExec : ServerlessOracle)
    (template : Template) (parameters : List Json) (capabilities : List String) :
    Except TemplateError Template :=
  if "CAPABILITY_AUTO_EXPAND" ∈ capabilities then
    do_transformations macroExec serverlessExec template parameters
  else
    Except.error (TemplateError.insufficientCapabilities
      "Requires capabilities : [CAPABILITY_AUTO_EXPAND]")

/-- The per-element normalisation of a `Transform` list entry as the claim
describes it (spec words, for comparison with `format_transforms`): a string
`e` becomes the dict with `Name` mapped to `e`, a dict passes unchanged, any
other element is dropped. -/
def format_transforms_spec_element : Json → Option Json
  | Json.str s => some (Json.obj [("Name", Json.str s)])
  | Json.obj fields => some (Json.obj fields)
  | _ => none

/-- A macro oracle that returns the template unchanged. -/
def idMacroOracle : MacroOracle := fun result _ _ => Except.ok result

/-- A macro oracle that always fails. -/
def failMacroOracle : MacroOracle := fun _ _ _ =>
  Except.error (TransformFailure.failedTransformation "m" "failed")

/-- A serverless oracle that returns the template unchanged. -/
def idServerlessOracle : ServerlessOracle := fun result => Except.ok result

/-- A serverless oracle that always fails. -/
def failServerlessOracle : ServerlessOracle := fun _ =>
  Except.error (TransformFailure.failedTransformation SERVERLESS_TRANSFORM "failed")

/-- Helper: the transform loop never raises `InsufficientCapabilitiesException`:
that exception is constructed only by `transform_template`'s capability
check. -/
theorem run_transforms_not_insufficient (macroExec : MacroOracle)
    (serverlessExec : ServerlessOracle) (parameters : List Json)
    (transformations : List Json) (result : Template) (msg : String) :
    run_transforms macroExec serverlessExec parameters transformations result ≠
      Except.error (TemplateError.insufficientCapabilities msg) := by
  induction transformations generalizing result with
  | nil => simp [run_transforms]
  | cons t rest ih =>
      simp only [run_transforms]
      repeat' split
      all_goals first
      | exact ih _
      | simp

/-- Helper: a transform list in which every entry is named
`AWS::LanguageExtensions` is skipped entirely, returning the accumulated
template unchanged. -/
theorem run_transforms_extensions_skip (macroExec : MacroOracle)
    (serverlessExec : ServerlessOracle) (parameters : List Json)
    (transformations : List Json) (result : Template)
    (h : ∀ t ∈ transformations,
        jlookup t "Name" = some (Json.str EXTENSIONS_TRANSFORM)) :
    run_transforms macroExec serverlessExec parameters transformations result =
      Except.ok result := by
  induction transformations with
  | nil => rfl
  | cons t rest ih =>
      have ht := h t (List.mem_cons_self t rest)
      have ih2 := ih fun x hx => h x (List.mem_cons_of_mem t hx)
      simp [run_transforms, ht, SERVERLESS_TRANSFORM, EXTENSIONS_TRANSFORM, ih2]

/-- Helper: the list case of `format_transforms` is exactly the element-wise
normalisation the spec describes, in input order. -/
theorem format_transforms_arr (elems : List Json) :
    format_transforms (Json.arr elems) =
      elems.filterMap format_transforms_spec_element := by
  show elems.foldr format_transforms_step [] =
    elems.filterMap format_transforms_spec_element
  induction elems with
  | nil => rfl
  | cons e rest ih =>
      cases e <;>
        simp [format_transforms_step, format_transforms_spec_element,
          List.filterMap_cons, ih]

/-- Claim C1 (code bug): with path `$.wait` and working document the object
mapping "wait" to 5, `SecondsPath._eval_body` does NOT resolve the wait to 5
seconds: the source passes the entire match list (here a one-element list) to
`Seconds`, a list is not an integer, and evaluation fails with a
runtime-classified type error. -/
theorem C1_secondsPath_wait5_fails :
    (SecondsPath.evalBody ⟨"$.wait"⟩ ⟨Json.obj [("wait", Json.int 5)], none⟩).1 =
        WaitOutcome.failed runtimeTypeError ∧
      (SecondsPath.evalBody ⟨"$.wait"⟩ ⟨Json.obj [("wait", Json.int 5)], none⟩).1 ≠
        WaitOutcome.resolved 5 := by
  constructor
  · rfl
  · intro h
    rw [show (SecondsPath.evalBody ⟨"$.wait"⟩
          ⟨Json.obj [("wait", Json.int 5)], none⟩).1 =
        WaitOutcome.failed runtimeTypeError from rfl] at h
    exact WaitOutcome.noConfusion h

/-- Claim C2 (code bug): with path `$.wait` and the empty working document the
path yields zero matches, and evaluation fails — but with a type error, not
the missing-value classification: the empty match list is handed whole to
`Seconds` and fails its integer check. -/
theorem C2_secondsPath_empty_fails_type :
    (SecondsPath.evalBody ⟨"$.wait"⟩ ⟨Json.obj [], none⟩).1 =
        WaitOutcome.failed runtimeTypeError ∧
      (SecondsPath.evalBody ⟨"$.wait"⟩ ⟨Json.obj [], none⟩).1 ≠
        WaitOutcome.failed runtimeMissingValue := by
  constructor
  · rfl
  · intro h
    rw [show (SecondsPath.evalBody ⟨"$.wait"⟩ ⟨Json.obj [], none⟩).1 =
        WaitOutcome.failed runtimeTypeError from rfl] at h
    simp only [WaitOutcome.failed.injEq] at h
    exact ErrorDetail.noConfusion (congrArg StructuredError.detail h)

/-- Claim C3 (code bug): when the path evaluator returns the two matches 5 and
7, the first match is NOT used as the resolved wait seconds: the whole
two-element match list is handed to `Seconds` and evaluation fails with a
runtime-classified type error instead of resolving to 5. -/
theorem C3_secondsPath_two_matches_fails :
    (SecondsPath.evalMatches [Json.int 5, Json.int 7] ⟨Json.null, none⟩).1 =
        WaitOutcome.failed runtimeTypeError ∧
      (SecondsPath.evalMatches [Json.int 5, Json.int 7] ⟨Json.null, none⟩).1 ≠
        WaitOutcome.resolved 5 := by
  constructor
  · rfl
  · intro h
    rw [show (SecondsPath.evalMatches [Json.int 5, Json.int 7]
          ⟨Json.null, none⟩).1 = WaitOutcome.failed runtimeTypeError from rfl] at h
    exact WaitOutcome.noConfusion h

/-- Claim C4 (code bug): with path `$.wait` and working document mapping
"wait" to -1, evaluation fails — but with a type error, not the range-error
classification: the one-element match list is handed whole to `Seconds`, which
rejects it as a non-integer before any sign check could run. -/
theorem C4_secondsPath_negative_fails_type :
    (SecondsPath.evalBody ⟨"$.wait"⟩ ⟨Json.obj [("wait", Json.int (-1))], none⟩).1 =
        WaitOutcome.failed runtimeTypeError ∧
      (SecondsPath.evalBody ⟨"$.wait"⟩ ⟨Json.obj [("wait", Json.int (-1))], none⟩).1 ≠
        WaitOutcome.failed runtimeRangeError := by
  constructor
  · rfl
  · intro h
    rw [show (SecondsPath.evalBody ⟨"$.wait"⟩
          ⟨Json.obj [("wait", Json.int (-1))], none⟩).1 =
        WaitOutcome.failed runtimeTypeError from rfl] at h
    simp only [WaitOutcome.failed.injEq] at h
    exact ErrorDetail.noConfusion (congrArg StructuredError.detail h)

/-- Claim C5: when the path yields exactly one match whose value is not an
integer, `SecondsPath` evaluation fails with a structured error of
runtime-error classification, detail type error. -/
theorem C5_one_nonint_match_type_error (v : Json) (env : Environment)
    (h : v.isInt = false) :
    (SecondsPath.evalMatches [v] env).1 = WaitOutcome.failed runtimeTypeError := rfl

/-- Witness for C5 at the concrete non-integer match "5" (a string). -/
theorem C5_witness :
    (Json.str "5").isInt = false ∧
      (SecondsPath.evalMatches [Json.str "5"] ⟨Json.obj [], none⟩).1 =
        WaitOutcome.failed runtimeTypeError :=
  ⟨rfl, C5_one_nonint_match_type_error (Json.str "5") ⟨Json.obj [], none⟩ rfl⟩

/-- Claim C6: resolving a SecondsPath wait specification (and the underlying
`Seconds` evaluation, for any seconds value) leaves the Environment's current
working document unchanged; only a value for the suspension step (or a
structured error in the error slot) is produced. -/
theorem C6_eval_preserves_document (sp : SecondsPath) (seconds : Json)
    (env : Environment) :
    (sp.evalBody env).2.inp = env.inp ∧ (Seconds.eval seconds env).2.inp = env.inp := by
  constructor
  · rfl
  · unfold Seconds.eval
    cases seconds <;> simp
    split <;> rfl

/-- Claim C7: `SecondsPath` resolution is deterministic: evaluations against
environments holding equal working documents produce the same outcome (the
same resolved seconds or the same failure classification). -/
theorem C7_deterministic (sp : SecondsPath) (env1 env2 : Environment)
    (h : env1.inp = env2.inp) :
    (sp.evalBody env1).1 = (sp.evalBody env2).1 := by
  unfold SecondsPath.evalBody SecondsPath.evalMatches
  rw [h]
  rfl

/-- Witness for C7: two environments with the same working document but
different error slots give the same outcome. -/
theorem C7_witness :
    (⟨Json.obj [("wait", Json.int 5)], none⟩ : Environment).inp =
        (⟨Json.obj [("wait", Json.int 5)], some runtimeTypeError⟩ : Environment).inp ∧
      (SecondsPath.evalBody ⟨"$.wait"⟩ ⟨Json.obj [("wait", Json.int 5)], none⟩).1 =
        (SecondsPath.evalBody ⟨"$.wait"⟩
          ⟨Json.obj [("wait", Json.int 5)], some runtimeTypeError⟩).1 :=
  ⟨rfl, C7_deterministic ⟨"$.wait"⟩ _ _ rfl⟩

/-- Claim C8: `transform_template` raises `InsufficientCapabilitiesException`
exactly when `"CAPABILITY_AUTO_EXPAND"` is missing from the capabilities, and
in that case no transformation is attempted: the result does not depend on the
macro or serverless behaviour (and the input template, being passed by value
here, is untouched). -/
theorem C8_capability_gate (mo mo2 : MacroOracle) (so so2 : ServerlessOracle)
    (template : Template) (parameters : List Json) (capabilities : List String) :
    (transform_template mo so template parameters capabilities =
        Except.error (TemplateError.insufficientCapabilities
          "Requires capabilities : [CAPABILITY_AUTO_EXPAND]") ↔
      "CAPABILITY_AUTO_EXPAND" ∉ capabilities) ∧
    ("CAPABILITY_AUTO_EXPAND" ∉ capabilities →
      transform_template mo so template parameters capabilities =
        transform_template mo2 so2 template parameters capabilities) := by
  unfold transform_template do_transformations
  by_cases hc : "CAPABILITY_AUTO_EXPAND" ∈ capabilities
  · rw [if_pos hc, if_pos hc]
    refine ⟨⟨fun h => ?_, fun h => absurd hc h⟩, fun h => absurd hc h⟩
    exact absurd h (run_transforms_not_insufficient mo so parameters _ template _)
  · rw [if_neg hc, if_neg hc]
    exact ⟨⟨fun _ => hc, fun _ => rfl⟩, fun _ => rfl⟩

/-- Witness for C8 at the empty capability list: the exception is raised and
the result is oracle-independent. -/
theorem C8_witness :
    transform_template idMacroOracle idServerlessOracle [] [] [] =
        Except.error (TemplateError.insufficientCapabilities
          "Requires capabilities : [CAPABILITY_AUTO_EXPAND]") ∧
      transform_template idMacroOracle idServerlessOracle [] [] [] =
        transform_template failMacroOracle failServerlessOracle [] [] [] :=
  ⟨(C8_capability_gate idMacroOracle failMacroOracle idServerlessOracle
      failServerlessOracle [] [] []).1.mpr (List.not_mem_nil _),
    (C8_capability_gate idMacroOracle failMacroOracle idServerlessOracle
      failServerlessOracle [] [] []).2 (List.not_mem_nil _)⟩

/-- Claim C9: when every formatted transform of the template's `Transform`
entry (absent, empty, or otherwise) is named `AWS::LanguageExtensions`,
`do_transformations` returns the input template unchanged. -/
theorem C9_extensions_only_identity (mo : MacroOracle) (so : ServerlessOracle)
    (template : Template) (parameters : List Json)
    (h : ∀ t ∈ format_transforms ((template.lookup "Transform").getD (Json.arr [])),
        jlookup t "Name" = some (Json.str EXTENSIONS_TRANSFORM)) :
    do_transformations mo so template parameters = Except.ok template :=
  run_transforms_extensions_skip mo so parameters _ template h

/-- Witness for C9 at a template whose `Transform` entry is the string
`AWS::LanguageExtensions`. -/
theorem C9_witness :
    do_transformations idMacroOracle idServerlessOracle
        [("Transform", Json.str "AWS::LanguageExtensions")] [] =
      Except.ok [("Transform", Json.str "AWS::LanguageExtensions")] :=
  C9_extensions_only_identity idMacroOracle idServerlessOracle
    [("Transform", Json.str "AWS::LanguageExtensions")] []
    (fun t ht => by rw [List.mem_singleton.mp ht]; rfl)

/-- Claim C10: `format_transforms` always returns a list of dicts; a string
input becomes a one-element list wrapping it under `Name`; a dict input
becomes the one-element list holding it; a list input is normalised
element-wise in input order, strings wrapped under `Name`, dicts unchanged,
anything else dropped. -/
theorem C10_format_transforms_shape :
    (∀ (j : Json), ∀ x ∈ format_transforms j, ∃ fields, x = Json.obj fields) ∧
    (∀ s : String,
      format_transforms (Json.str s) = [Json.obj [("Name", Json.str s)]]) ∧
    (∀ fields : List (String × Json),
      format_transforms (Json.obj fields) = [Json.obj fields]) ∧
    (∀ elems : List Json,
      format_transforms (Json.arr elems) =
        elems.filterMap format_transforms_spec_element) := by
  refine ⟨?_, fun _ => rfl, fun _ => rfl, format_transforms_arr⟩
  intro j x hx
  cases j with
  | str s => exact ⟨_, List.mem_singleton.mp hx⟩
  | obj fields => exact ⟨_, List.mem_singleton.mp hx⟩
  | arr elems =>
      rw [format_transforms_arr] at hx
      rcases List.mem_filterMap.mp hx with ⟨a, _, ha⟩
      cases a with
      | str s => exact ⟨_, (Option.some_inj.mp ha).symm⟩
      | obj fields => exact ⟨_, (Option.some_inj.mp ha).symm⟩
      | null => exact Option.noConfusion ha
      | bool b => exact Option.noConfusion ha
      | int n => exact Option.noConfusion ha
      | arr es => exact Option.noConfusion ha
  | null => exact absurd hx (List.not_mem_nil x)
  | bool b => exact absurd hx (List.not_mem_nil x)
  | int n => exact absurd hx (List.not_mem_nil x)

/-- Witness for C10: the normalisation of the string "A" is a dict. -/
theorem C10_witness :
    ∃ fields, Json.obj [("Name", Json.str "A")] = Json.obj fields :=
  C10_format_transforms_shape.1 (Json.str "A") (Json.obj [("Name", Json.str "A")])
    (List.mem_singleton.mpr rfl)
